import Mathlib

/-!
Verification development for the hstockplus product API client
(`src/product_api.js`).  The client wraps a third-party REST API: it
normalises every HTTP outcome into a uniform result envelope and
validates endpoint inputs before dispatch.  JavaScript values that flow
through the client are modelled by a small JSON value type; the axios
transport boundary is modelled as an oracle producing one of the four
outcomes the code branches on.
-/

/-- JSON-ish JavaScript value.  `undefined` models the JavaScript value
`undefined` (in particular the result of reading an absent object
property); `null` models JavaScript `null`.  Numbers are modelled as
integers (no claim depends on fractional values). -/
inductive Json where
  | undefined : Json
  | null : Json
  | bool (b : Bool) : Json
  | num (n : Int) : Json
  | str (s : String) : Json
  | arr (xs : List Json) : Json
  | obj (fields : List (String × Json)) : Json

namespace Json

/-- JavaScript truthiness of a value. -/
def truthy : Json → Bool
  | .undefined => false
  | .null => false
  | .bool b => b
  | .num n => n != 0
  | .str s => s != ""
  | .arr _ => true
  | .obj _ => true

/-- Property read `o[k]`: on an object, the value stored under `k`
(`undefined` when absent); on every other value, `undefined`.  This also
models the optional chains `o?.k` used by the code, since reading on
`null`/`undefined` yields `undefined` here rather than throwing, which
is exactly what the code relies on `?.` for. -/
def get (v : Json) (k : String) : Json :=
  match v with
  | .obj fields =>
    match fields.lookup k with
    | some x => x
    | none => .undefined
  | _ => .undefined

/-- Is the value exactly `undefined`? (JavaScript `=== undefined`). -/
def isUndefined : Json → Bool
  | .undefined => true
  | _ => false

/-- Is the value `undefined` or `null`?  (the test
`x === undefined || x === null` used by subproduct validation). -/
def isUndefOrNull : Json → Bool
  | .undefined => true
  | .null => true
  | _ => false

/-- JavaScript `Array.isArray`. -/
def isArr : Json → Bool
  | .arr _ => true
  | _ => false

/-- `xs.length` for an array value (only read after `Array.isArray`
has succeeded in the code). -/
def arrayLength : Json → Nat
  | .arr xs => xs.length
  | _ => 0

end Json

/-- JavaScript `a || b`: `a` when `a` is truthy, else `b`. -/
def jsOr (a b : Json) : Json :=
  if a.truthy then a else b

/-- JavaScript destructuring default `{x = d} = o`: the default `d`
replaces the read value exactly when that value is `undefined`. -/
def jsDefault (v d : Json) : Json :=
  if v.isUndefined then d else v

/-- Outcome of the underlying axios transport call, as the `try`/`catch`
in `ProductApi.request` distinguishes them:
* `resolved status data` — the axios promise fulfilled (the transport
  completed and handed back a response);
* `errorResponse status data` — the promise rejected with
  `error.response` attached (the server answered, axios surfaced it as
  an error — under the client's default axios configuration this is
  exactly the non-2xx statuses);
* `errorRequest message` — the promise rejected with `error.request`
  set but no response (timeout, connection refused, DNS failure);
  `message` is the transport error text `error.message`;
* `errorSetup message` — the promise rejected before the request could
  be dispatched. -/
inductive AxiosOutcome where
  | resolved (status : Nat) (data : Json) : AxiosOutcome
  | errorResponse (status : Nat) (data : Json) : AxiosOutcome
  | errorRequest (message : String) : AxiosOutcome
  | errorSetup (message : String) : AxiosOutcome

/-- The uniform result envelope returned by `ProductApi.request`.
`status = none` models the JavaScript `status: null`; fields that a
given branch of the code does not set default to `none`. -/
structure ResultEnvelope where
  success : Bool
  status : Option Nat
  data : Option Json := none
  error : Option Json := none
  message : Option Json := none
  duration : Nat

/-- The axios request configuration an endpoint method hands to
`request`: method, URL, headers, optional JSON body, optional query
parameters (`config.params`). -/
structure RequestSpec where
  method : String
  url : String
  headers : List (String × String)
  body : Option Json := none
  params : Option (List (String × Json)) := none

/-- JavaScript `String.prototype.substring(a, b)`: both indices are
clamped into `[0, length]` and swapped when `a > b`; the characters
between them are returned. -/
def jsSubstring (s : String) (a b : Int) : String :=
  let len : Int := (s.data.length : Int)
  let a' : Nat := (min (max a 0) len).toNat
  let b' : Nat := (min (max b 0) len).toNat
  String.mk ((s.data.drop (min a' b')).take (max a' b' - min a' b'))

/-- The API-key masking applied before the headers are logged
(src/product_api.js line 65):
`apiKey.substring(0, 8) + "..." + apiKey.substring(apiKey.length - 4)`. -/
def maskKey (apiKey : String) : String :=
  jsSubstring apiKey 0 8 ++ "..." ++
    jsSubstring apiKey ((apiKey.data.length : Int) - 4) (apiKey.data.length : Int)

/-- The `safeHeaders` object whose serialisation is emitted in the
request-log event (src/product_api.js lines 62-67): a copy of the
headers in which the `X-Api-Key` entry, when present and truthy
(non-empty), is replaced by its masked form.  Reading the property in
JavaScript yields `undefined` when the entry is absent; both that and
the empty string are falsy, so the absent case is folded into the
default `""` here, exactly preserving which branch runs. -/
def safeHeaders (headers : List (String × String)) : List (String × String) :=
  let v := (headers.lookup "X-Api-Key").getD ""
  if v ≠ "" then
    headers.map (fun p => if p.1 = "X-Api-Key" then (p.1, maskKey v) else p)
  else headers

namespace ProductApi

/-- Base URL fixed by the constructor. -/
def baseUrl : String := "https://hstockplus.com/api/admin/v2"

/-- `getHeader()`: the two request headers. -/
def getHeader (apikey : String) : List (String × String) :=
  [("X-Api-Key", apikey), ("Content-Type", "application/json")]

/-- The outcome-classification core of `ProductApi.request`
(src/product_api.js lines 80-167).  The transport outcome and the
measured wall-clock duration are external inputs; the function is total:
every outcome, including all three failure kinds, is returned as an
envelope, never raised.  Field by field this mirrors the four `return`
statements of the source. -/
def request (outcome : AxiosOutcome) (duration : Nat) : ResultEnvelope :=
  match outcome with
  | .resolved status data =>
    { success := true
      status := some status
      data := some data
      duration := duration }
  | .errorResponse status data =>
    { success := false
      status := some status
      error := some data
      message := some (jsOr (data.get "message")
        (jsOr (data.get "error") (.str "Request failed")))
      duration := duration }
  | .errorRequest msg =>
    { success := false
      status := none
      error := some (.str "No response received")
      message := some (jsOr (.str msg) (.str "Network error or server timeout"))
      duration := duration }
  | .errorSetup msg =>
    { success := false
      status := none
      error := some (.str "Request setup error")
      message := some (.str msg)
      duration := duration }

/-- Validation of one subproduct entry (src/product_api.js lines
295-308): the first failing check, if any, with the message of the
`Error` the code throws for it.  `sourceProductId` and `sourceName`
are required truthy; `price` and `stock` are rejected exactly when
`undefined` or `null` (`=== undefined || === null`). -/
def subproductError (sp : Json) : Option String :=
  if !(sp.get "sourceProductId").truthy then
    some "subproduct.sourceProductId is required"
  else if !(sp.get "sourceName").truthy then
    some "subproduct.sourceName is required"
  else if (sp.get "price").isUndefOrNull then
    some "subproduct.price is required"
  else if (sp.get "stock").isUndefOrNull then
    some "subproduct.stock is required"
  else none

/-- The `for (const subproduct of subproducts)` validation loop: the
error thrown for the first invalid entry, if any. -/
def subproductsFirstError : List Json → Option String
  | [] => none
  | sp :: rest =>
    match subproductError sp with
    | some e => some e
    | none => subproductsFirstError rest

/-- The payload object built by `addProduct` (src/product_api.js lines
311-343): the five required fields, then each optional field appended
exactly when its (destructured, defaulted) value is truthy — except
`warrantyDays` and `active`, which are appended when not `undefined`
(and after destructuring defaults they never are). -/
def addProductPayload (productData : Json) : List (String × Json) :=
  let base :=
    [("categoryName", productData.get "categoryName"),
     ("subcategoryName", productData.get "subcategoryName"),
     ("sourceProductId", productData.get "sourceProductId"),
     ("name", productData.get "name"),
     ("subproducts", productData.get "subproducts")]
  let p1 := if (productData.get "sourceUrl").truthy then
      base ++ [("sourceUrl", productData.get "sourceUrl")] else base
  let p2 := if (productData.get "provider").truthy then
      p1 ++ [("provider", productData.get "provider")] else p1
  let p3 := if (productData.get "description").truthy then
      p2 ++ [("description", productData.get "description")] else p2
  let p4 := if (productData.get "descriptionText").truthy then
      p3 ++ [("descriptionText", productData.get "descriptionText")] else p3
  let p5 := if (productData.get "image").truthy then
      p4 ++ [("image", productData.get "image")] else p4
  let warrantyDays := jsDefault (productData.get "warrantyDays") (.num 7)
  let p6 := if !warrantyDays.isUndefined then
      p5 ++ [("warrantyDays", warrantyDays)] else p5
  let active := jsDefault (productData.get "active") (.bool true)
  let p7 := if !active.isUndefined then
      p6 ++ [("active", active)] else p6
  let p8 := if (productData.get "productType").truthy then
      p7 ++ [("productType", productData.get "productType")] else p7
  p8

/-- `addProduct(productData)` (src/product_api.js lines 260-346) up to
the point where it delegates to `request`.  A `.error e` value models
the synchronous `throw new Error(e)` raised before any network call is
attempted; `.ok spec` is the axios configuration the method passes on.
The checks appear in source order and the subproducts emptiness test
mirrors `!subproducts || !Array.isArray(subproducts) ||
subproducts.length === 0` with short-circuiting `||`. -/
def addProduct (apikey : String) (productData : Json) : Except String RequestSpec :=
  let subproducts := productData.get "subproducts"
  if !(productData.get "categoryName").truthy then
    .error "categoryName is required"
  else if !(productData.get "subcategoryName").truthy then
    .error "subcategoryName is required"
  else if !(productData.get "sourceProductId").truthy then
    .error "sourceProductId is required"
  else if !(productData.get "name").truthy then
    .error "name is required"
  else if !subproducts.truthy || !subproducts.isArr || subproducts.arrayLength == 0 then
    .error "subproducts is required and must contain at least one subproduct"
  else
    match subproducts with
    | .arr entries =>
      match subproductsFirstError entries with
      | some e => .error e
      | none =>
        .ok { method := "POST"
              url := baseUrl ++ "/products"
              headers := getHeader apikey
              body := some (.obj (addProductPayload productData)) }
    | _ => .error "subproducts is required and must contain at least one subproduct"

/-- Options accepted by `getProducts` per its documented interface
(`productType: string`, `isActive: boolean`, `limit`/`offset`:
numbers); `none` models an absent property, so the destructuring
defaults of the source apply exactly to `none`. -/
structure GetProductsOptions where
  productType : Option String := none
  isActive : Option Bool := none
  limit : Option Int := none
  offset : Option Int := none

/-- `getProducts(options)` (src/product_api.js lines 375-392): applies
the destructuring defaults and builds the GET request whose `params`
are the query parameters.  `isActive.toString().toLowerCase()` on a
boolean yields the lowercase string rendered here (`toString` already
produces lowercase `true`/`false`, and `toLowerCase` is the identity on
them). -/
def getProducts (apikey : String) (options : GetProductsOptions) : RequestSpec :=
  let productType := options.productType.getD "auto"
  let isActive := options.isActive.getD true
  let limit := options.limit.getD 50
  let offset := options.offset.getD 0
  { method := "GET"
    url := baseUrl ++ "/products"
    headers := getHeader apikey
    body := none
    params := some
      [("productType", .str productType),
       ("isActive", .str (if isActive then "true" else "false")),
       ("limit", .num limit),
       ("offset", .num offset)] }

/-- A `friendlyId` argument as documented: `number | string`. -/
inductive FriendlyId where
  | num (n : Int) : FriendlyId
  | str (s : String) : FriendlyId

/-- JavaScript truthiness of a `friendlyId` (`!friendlyId`): the number
`0` and the empty string are the falsy cases. -/
def FriendlyId.truthy : FriendlyId → Bool
  | .num n => n != 0
  | .str s => s != ""

/-- The template-literal rendering of a `friendlyId` inside
`${this.baseUrl}/products/${friendlyId}`: decimal for numbers, the
string itself for strings. -/
def FriendlyId.render : FriendlyId → String
  | .num n => toString n
  | .str s => s

/-- `deleteProduct(friendlyId)` (src/product_api.js lines 406-413) up
to the delegation to `request`: throws exactly when `friendlyId` is
falsy, otherwise issues a DELETE to `/products/{friendlyId}`. -/
def deleteProduct (apikey : String) (friendlyId : FriendlyId) : Except String RequestSpec :=
  if !friendlyId.truthy then
    .error "friendlyId is required"
  else
    .ok { method := "DELETE"
          url := baseUrl ++ "/products/" ++ friendlyId.render
          headers := getHeader apikey }

/-- The whole `deleteProduct` call including the delegated `request`:
the transport is an oracle mapping the dispatched configuration to its
outcome. -/
def runDeleteProduct (apikey : String) (friendlyId : FriendlyId)
    (transport : RequestSpec → AxiosOutcome) (duration : Nat) :
    Except String ResultEnvelope :=
  match deleteProduct apikey friendlyId with
  | .error e => .error e
  | .ok spec => .ok (request (transport spec) duration)

end ProductApi

/-- Stated from the claim wording for comparison with the code: the
first *defined* (not `undefined`) of the response body `message` field,
the body `error` field, else the literal `"Request failed"`. -/
def firstDefinedMessage (body : Json) : Json :=
  if !(body.get "message").isUndefined then body.get "message"
  else if !(body.get "error").isUndefined then body.get "error"
  else .str "Request failed"

/-- Stated from the amended claim wording: the first *truthy* of the
response body `message` field, the body `error` field, else the literal
`"Request failed"`. -/
def firstTruthyMessage (body : Json) : Json :=
  if (body.get "message").truthy then body.get "message"
  else if (body.get "error").truthy then body.get "error"
  else .str "Request failed"

/-- The first `n` characters of a string (claim-side notion). -/
def firstChars (n : Nat) (s : String) : String :=
  String.mk (s.data.take n)

/-- The last `n` characters of a string (claim-side notion). -/
def lastChars (n : Nat) (s : String) : String :=
  String.mk (s.data.drop (s.data.length - n))

/-- A server error body whose `message` field is present (defined) but
empty: the input separating the truthiness fallback of the code from a
definedness fallback. -/
def cexServerBody : Json :=
  .obj [("message", .str ""), ("error", .str "boom")]

/-- A subproduct whose `stock` is the number `0` and whose other
required fields are non-empty. -/
def stockZeroSubproduct : Json :=
  .obj [("sourceProductId", .str "SUB-1"), ("sourceName", .str "Variant"),
        ("price", .num 25), ("stock", .num 0)]

/-- A minimal valid product payload: required fields only, all optional
fields absent. -/
def sampleProduct : Json :=
  .obj [("categoryName", .str "Accounts"),
        ("subcategoryName", .str "Instagram Accounts"),
        ("sourceProductId", .str "PROD-1"),
        ("name", .str "Verified Account"),
        ("subproducts", .arr [stockZeroSubproduct])]

/-- The documented shape of a delete-endpoint success body. -/
def deleteResponseBody : Json :=
  .obj [("success", .bool true), ("message", .str "deleted"),
        ("friendlyId", .num 1001), ("productId", .num 42)]

/-- Appending two strings concatenates their character lists. -/
theorem string_data_append (x y : String) : (x ++ y).data = x.data ++ y.data := by
  cases x
  cases y
  rfl

/-- Two strings with the same character list are equal. -/
theorem string_eq_of_data {x y : String} (h : x.data = y.data) : x = y := by
  cases x
  cases y
  exact congrArg String.mk h

/-- `jsDefault` never produces `undefined` when the default is not
`undefined`. -/
theorem jsDefault_isUndef_false (v d : Json) (hd : d.isUndefined = false) :
    (jsDefault v d).isUndefined = false := by
  unfold jsDefault
  cases hv : v.isUndefined <;> simp [hv, hd]

/-- C1: when the underlying transport completes with a server response
(the axios promise fulfils, whatever the carried status code), the
envelope is the success variant: `success = true`, `status` is the
server status, `data` is the parsed payload unchanged, and no error
fields are populated. -/
theorem request_transport_success (status : Nat) (data : Json) (duration : Nat) :
    ProductApi.request (.resolved status data) duration =
      { success := true, status := some status, data := some data,
        error := none, message := none, duration := duration } := rfl

/-- C2 counterexample: for the server-failure body
`{message: "", error: "boom"}` the code returns `"boom"` as the
message, while the first *defined* of `body.message`, `body.error`,
`"Request failed"` is the empty string — the claim as stated fails at
this input. -/
theorem server_failure_message_counterexample :
    (ProductApi.request (.errorResponse 500 cexServerBody) 0).message = some (.str "boom")
    ∧ firstDefinedMessage cexServerBody = .str ""
    ∧ (ProductApi.request (.errorResponse 500 cexServerBody) 0).message
        ≠ some (firstDefinedMessage cexServerBody) := by
  refine ⟨rfl, rfl, ?_⟩
  intro h
  have h1 : Json.str "boom" = Json.str "" := Option.some.inj h
  exact absurd (Json.str.inj h1) (by decide)

/-- C2 (amended): when the transport surfaces an error with a server
response attached (under the client defaults, exactly the statuses
outside 2xx), the envelope has `success = false`, `status` the server
status, `error` the response body, and `message` the first *truthy* of
the body `message` field, the body `error` field, else the literal
`"Request failed"` — including when the body is not a JSON object. -/
theorem server_failure_envelope (status : Nat) (body : Json) (duration : Nat) :
    ProductApi.request (.errorResponse status body) duration =
      { success := false, status := some status, error := some body,
        message := some (firstTruthyMessage body), duration := duration } := rfl

/-- C3: when the request is dispatched but no response arrives, the
envelope has `success = false`, null status, the literal
`"No response received"` as error detail, and the transport error text
as message, falling back to `"Network error or server timeout"` when
that text is empty. -/
theorem no_response_envelope (msg : String) (duration : Nat) :
    ProductApi.request (.errorRequest msg) duration =
      { success := false, status := none,
        error := some (.str "No response received"),
        message := some (.str (if msg = "" then "Network error or server timeout" else msg)),
        duration := duration } := by
  by_cases h : msg = "" <;>
    simp [ProductApi.request, jsOr, Json.truthy, h]

/-- C4: `request` is a total function into envelopes — no server-level,
no-response, or setup failure is raised to the caller.  All three
failure outcomes produce `success = false`, and the setup failure
yields null status, the literal `"Request setup error"` as error
detail, and the text of the exception as message. -/
theorem failures_returned_not_raised (status : Nat) (body : Json)
    (msg setupMsg : String) (duration : Nat) :
    (ProductApi.request (.errorResponse status body) duration).success = false
    ∧ (ProductApi.request (.errorRequest msg) duration).success = false
    ∧ ProductApi.request (.errorSetup setupMsg) duration =
        { success := false, status := none,
          error := some (.str "Request setup error"),
          message := some (.str setupMsg), duration := duration } :=
  ⟨rfl, rfl, rfl⟩

/-- C5: `addProduct` raises synchronously — returning `.error` here,
with no request configuration ever built and hence no network call
attempted — whenever a required name field is empty or `subproducts`
is missing, not an array, or an empty array. -/
theorem addProduct_rejects_invalid (apikey : String) (pd : Json)
    (h : pd.get "categoryName" = .str "" ∨ pd.get "subcategoryName" = .str ""
      ∨ pd.get "sourceProductId" = .str "" ∨ pd.get "name" = .str ""
      ∨ (pd.get "subproducts").isArr = false ∨ pd.get "subproducts" = .arr []) :
    ∃ e, ProductApi.addProduct apikey pd = .error e := by
  rcases h with h | h | h | h | h | h <;>
  · simp only [ProductApi.addProduct]
    split_ifs <;>
      first
        | exact ⟨_, rfl⟩
        | simp_all [Json.truthy, Json.isArr, Json.arrayLength]

/-- C5 witness: `addProduct` with `subproducts: []` (and otherwise
well-formed data) returns an error. -/
theorem addProduct_rejects_invalid_witness :
    ∃ e, ProductApi.addProduct "key"
      (.obj [("categoryName", .str "Accounts"),
             ("subcategoryName", .str "Instagram Accounts"),
             ("sourceProductId", .str "PROD-1"),
             ("name", .str "Verified Account"),
             ("subproducts", .arr [])]) = .error e :=
  addProduct_rejects_invalid "key" _
    (Or.inr (Or.inr (Or.inr (Or.inr (Or.inr rfl)))))

/-- C6: for a subproduct whose `sourceProductId` and `sourceName` pass,
validation succeeds exactly when `price` and `stock` are each neither
`undefined` nor `null` — so the number `0` passes. -/
theorem subproduct_nullish_check_only (sp : Json)
    (h1 : (sp.get "sourceProductId").truthy = true)
    (h2 : (sp.get "sourceName").truthy = true) :
    ProductApi.subproductError sp = none ↔
      ((sp.get "price" ≠ .undefined ∧ sp.get "price" ≠ .null)
        ∧ (sp.get "stock" ≠ .undefined ∧ sp.get "stock" ≠ .null)) := by
  unfold ProductApi.subproductError
  rw [h1, h2]
  simp only [Bool.not_true, Bool.false_eq_true, if_false]
  cases hp : sp.get "price" <;> cases hs : sp.get "stock" <;>
    simp [Json.isUndefOrNull]

/-- C6 witness: a subproduct with `stock` equal to the number `0` and
all other required fields non-empty passes validation. -/
theorem subproduct_nullish_check_only_witness :
    ProductApi.subproductError stockZeroSubproduct = none :=
  (subproduct_nullish_check_only stockZeroSubproduct rfl rfl).mpr
    ⟨⟨(fun h => nomatch h), (fun h => nomatch h)⟩,
     ⟨(fun h => nomatch h), (fun h => nomatch h)⟩⟩

/-- C7: `getProducts` with no options issues a GET whose query is
exactly `productType = "auto"`, `isActive = "true"`, `limit = 50`,
`offset = 0`; and for every call carrying a boolean `isActive`, that
boolean is serialised into the query as the lowercase string `"true"`
or `"false"`. -/
theorem getProducts_defaults_and_serialisation (apikey : String) :
    (ProductApi.getProducts apikey {}).method = "GET"
    ∧ (ProductApi.getProducts apikey {}).params = some
        [("productType", .str "auto"), ("isActive", .str "true"),
         ("limit", .num 50), ("offset", .num 0)]
    ∧ ∀ (options : ProductApi.GetProductsOptions) (b : Bool),
        options.isActive = some b →
        (ProductApi.getProducts apikey options).params = some
          [("productType", .str (options.productType.getD "auto")),
           ("isActive", .str (if b then "true" else "false")),
           ("limit", .num (options.limit.getD 50)),
           ("offset", .num (options.offset.getD 0))] := by
  refine ⟨rfl, rfl, ?_⟩
  intro options b hb
  simp [ProductApi.getProducts, hb]

/-- C7 witness: a call with `isActive: false` serialises it as the
string `"false"`, with the other defaults in place. -/
theorem getProducts_defaults_and_serialisation_witness :
    (ProductApi.getProducts "key" { isActive := some false }).params = some
      [("productType", .str "auto"), ("isActive", .str "false"),
       ("limit", .num 50), ("offset", .num 0)] :=
  (getProducts_defaults_and_serialisation "key").2.2
    { isActive := some false } false rfl

/-- C9: `deleteProduct` errors exactly when `friendlyId` is falsy;
for every truthy `friendlyId` it issues a DELETE to the base URL with
`/products/{friendlyId}` appended, and when the server responds the
response body is returned unchanged as the envelope `data` field. -/
theorem deleteProduct_roundtrip (apikey : String) (fid : ProductApi.FriendlyId)
    (transport : RequestSpec → AxiosOutcome) (duration : Nat) :
    ((ProductApi.deleteProduct apikey fid).isOk = fid.truthy)
    ∧ (fid.truthy = true →
        ProductApi.deleteProduct apikey fid = .ok
          { method := "DELETE",
            url := ProductApi.baseUrl ++ "/products/" ++ fid.render,
            headers := ProductApi.getHeader apikey })
    ∧ (∀ status body spec, ProductApi.deleteProduct apikey fid = .ok spec →
        transport spec = .resolved status body →
        ∃ env, ProductApi.runDeleteProduct apikey fid transport duration = .ok env
          ∧ env.data = some body ∧ env.success = true) := by
  refine ⟨?_, ?_, ?_⟩
  · cases ht : fid.truthy <;>
      simp [ProductApi.deleteProduct, ht, Except.isOk, Except.toBool]
  · intro ht
    simp [ProductApi.deleteProduct, ht]
  · intro status body spec hspec htr
    refine ⟨ProductApi.request (.resolved status body) duration, ?_, rfl, rfl⟩
    simp only [ProductApi.runDeleteProduct, hspec, htr]

/-- C9 witness: `deleteProduct(1001)` dispatches and hands back the
server body unchanged. -/
theorem deleteProduct_roundtrip_witness :
    ∃ env, ProductApi.runDeleteProduct "key" (.num 1001)
        (fun _ => .resolved 200 deleteResponseBody) 5 = .ok env
      ∧ env.data = some deleteResponseBody ∧ env.success = true :=
  (deleteProduct_roundtrip "key" (.num 1001)
      (fun _ => .resolved 200 deleteResponseBody) 5).2.2 200 deleteResponseBody
    _ rfl rfl

/-- Association-list lookup distributes over append. -/
theorem lookup_append (k : String) (l₁ l₂ : List (String × Json)) :
    List.lookup k (l₁ ++ l₂) = (List.lookup k l₁).or (List.lookup k l₂) := by
  induction l₁ with
  | nil => simp [List.lookup]
  | cons hd tl ih =>
    obtain ⟨a, b⟩ := hd
    simp only [List.cons_append, List.lookup]
    cases hk : k == a <;> simp [ih]

/-- Conditionally appending an entry under a different key does not
change a lookup. -/
theorem lookup_ite_append_ne (k name : String) (h : (k == name) = false)
    (c : Prop) [Decidable c] (v : Json) (l : List (String × Json)) :
    List.lookup k (if c then l ++ [(name, v)] else l) = List.lookup k l := by
  split
  · rw [lookup_append]
    simp [List.lookup, h]
  · rfl

/-- When `addProduct` succeeds, the dispatched body is exactly the
payload object it builds. -/
theorem addProduct_ok_body (apikey : String) (pd : Json) (spec : RequestSpec)
    (h : ProductApi.addProduct apikey pd = .ok spec) :
    spec.body = some (.obj (ProductApi.addProductPayload pd)) := by
  simp only [ProductApi.addProduct] at h
  split_ifs at h <;> try simp at h
  split at h <;> try simp at h
  split at h <;> simp at h
  rw [← h]

/-- C10: for every `addProduct` call that passes validation, the
outgoing payload always carries `warrantyDays` (the destructured value,
`7` when the caller omitted it) and `active` (`true` when omitted),
while each of the six optional fields is left out of the payload
whenever its supplied value is falsy. -/
theorem addProduct_payload_defaults (apikey : String) (pd : Json)
    (hok : (ProductApi.addProduct apikey pd).isOk = true) :
    (∀ spec, ProductApi.addProduct apikey pd = .ok spec →
        spec.body = some (.obj (ProductApi.addProductPayload pd)))
    ∧ (ProductApi.addProductPayload pd).lookup "warrantyDays"
        = some (jsDefault (pd.get "warrantyDays") (.num 7))
    ∧ (ProductApi.addProductPayload pd).lookup "active"
        = some (jsDefault (pd.get "active") (.bool true))
    ∧ (pd.get "warrantyDays" = .undefined →
        (ProductApi.addProductPayload pd).lookup "warrantyDays" = some (.num 7))
    ∧ (pd.get "active" = .undefined →
        (ProductApi.addProductPayload pd).lookup "active" = some (.bool true))
    ∧ ((pd.get "sourceUrl").truthy = false →
        (ProductApi.addProductPayload pd).lookup "sourceUrl" = none)
    ∧ ((pd.get "provider").truthy = false →
        (ProductApi.addProductPayload pd).lookup "provider" = none)
    ∧ ((pd.get "description").truthy = false →
        (ProductApi.addProductPayload pd).lookup "description" = none)
    ∧ ((pd.get "descriptionText").truthy = false →
        (ProductApi.addProductPayload pd).lookup "descriptionText" = none)
    ∧ ((pd.get "image").truthy = false →
        (ProductApi.addProductPayload pd).lookup "image" = none)
    ∧ ((pd.get "productType").truthy = false →
        (ProductApi.addProductPayload pd).lookup "productType" = none) := by
  have h7 : (jsDefault (pd.get "warrantyDays") (.num 7)).isUndefined = false :=
    jsDefault_isUndef_false _ _ rfl
  have hT : (jsDefault (pd.get "active") (.bool true)).isUndefined = false :=
    jsDefault_isUndef_false _ _ rfl
  have hc7 : (!(jsDefault (pd.get "warrantyDays") (Json.num 7)).isUndefined) = true := by
    rw [h7]
    rfl
  have hcT : (!(jsDefault (pd.get "active") (Json.bool true)).isUndefined) = true := by
    rw [hT]
    rfl
  have hw : (ProductApi.addProductPayload pd).lookup "warrantyDays"
      = some (jsDefault (pd.get "warrantyDays") (.num 7)) := by
    simp only [ProductApi.addProductPayload]
    rw [lookup_ite_append_ne "warrantyDays" "productType" (by decide),
      lookup_ite_append_ne "warrantyDays" "active" (by decide),
      if_pos hc7, lookup_append,
      lookup_ite_append_ne "warrantyDays" "image" (by decide),
      lookup_ite_append_ne "warrantyDays" "descriptionText" (by decide),
      lookup_ite_append_ne "warrantyDays" "description" (by decide),
      lookup_ite_append_ne "warrantyDays" "provider" (by decide),
      lookup_ite_append_ne "warrantyDays" "sourceUrl" (by decide)]
    rfl
  have ha : (ProductApi.addProductPayload pd).lookup "active"
      = some (jsDefault (pd.get "active") (.bool true)) := by
    simp only [ProductApi.addProductPayload]
    rw [lookup_ite_append_ne "active" "productType" (by decide),
      if_pos hcT, lookup_append,
      lookup_ite_append_ne "active" "warrantyDays" (by decide),
      lookup_ite_append_ne "active" "image" (by decide),
      lookup_ite_append_ne "active" "descriptionText" (by decide),
      lookup_ite_append_ne "active" "description" (by decide),
      lookup_ite_append_ne "active" "provider" (by decide),
      lookup_ite_append_ne "active" "sourceUrl" (by decide)]
    rfl
  refine ⟨fun spec h => addProduct_ok_body apikey pd spec h, hw, ha,
    ?_, ?_, ?_, ?_, ?_, ?_, ?_, ?_⟩
  · intro h
    rw [hw, h]
    rfl
  · intro h
    rw [ha, h]
    rfl
  · intro h
    simp only [ProductApi.addProductPayload]
    rw [lookup_ite_append_ne "sourceUrl" "productType" (by decide),
      lookup_ite_append_ne "sourceUrl" "active" (by decide),
      lookup_ite_append_ne "sourceUrl" "warrantyDays" (by decide),
      lookup_ite_append_ne "sourceUrl" "image" (by decide),
      lookup_ite_append_ne "sourceUrl" "descriptionText" (by decide),
      lookup_ite_append_ne "sourceUrl" "description" (by decide),
      lookup_ite_append_ne "sourceUrl" "provider" (by decide),
      if_neg (by simp [h])]
    rfl
  · intro h
    simp only [ProductApi.addProductPayload]
    rw [lookup_ite_append_ne "provider" "productType" (by decide),
      lookup_ite_append_ne "provider" "active" (by decide),
      lookup_ite_append_ne "provider" "warrantyDays" (by decide),
      lookup_ite_append_ne "provider" "image" (by decide),
      lookup_ite_append_ne "provider" "descriptionText" (by decide),
      lookup_ite_append_ne "provider" "description" (by decide),
      if_neg (by simp [h]),
      lookup_ite_append_ne "provider" "sourceUrl" (by decide)]
    rfl
  · intro h
    simp only [ProductApi.addProductPayload]
    rw [lookup_ite_append_ne "description" "productType" (by decide),
      lookup_ite_append_ne "description" "active" (by decide),
      lookup_ite_append_ne "description" "warrantyDays" (by decide),
      lookup_ite_append_ne "description" "image" (by decide),
      lookup_ite_append_ne "description" "descriptionText" (by decide),
      if_neg (by simp [h]),
      lookup_ite_append_ne "description" "provider" (by decide),
      lookup_ite_append_ne "description" "sourceUrl" (by decide)]
    rfl
  · intro h
    simp only [ProductApi.addProductPayload]
    rw [lookup_ite_append_ne "descriptionText" "productType" (by decide),
      lookup_ite_append_ne "descriptionText" "active" (by decide),
      lookup_ite_append_ne "descriptionText" "warrantyDays" (by decide),
      lookup_ite_append_ne "descriptionText" "image" (by decide),
      if_neg (by simp [h]),
      lookup_ite_append_ne "descriptionText" "description" (by decide),
      lookup_ite_append_ne "descriptionText" "provider" (by decide),
      lookup_ite_append_ne "descriptionText" "sourceUrl" (by decide)]
    rfl
  · intro h
    simp only [ProductApi.addProductPayload]
    rw [lookup_ite_append_ne "image" "productType" (by decide),
      lookup_ite_append_ne "image" "active" (by decide),
      lookup_ite_append_ne "image" "warrantyDays" (by decide),
      if_neg (by simp [h]),
      lookup_ite_append_ne "image" "descriptionText" (by decide),
      lookup_ite_append_ne "image" "description" (by decide),
      lookup_ite_append_ne "image" "provider" (by decide),
      lookup_ite_append_ne "image" "sourceUrl" (by decide)]
    rfl
  · intro h
    simp only [ProductApi.addProductPayload]
    rw [if_neg (by simp [h]),
      lookup_ite_append_ne "productType" "active" (by decide),
      lookup_ite_append_ne "productType" "warrantyDays" (by decide),
      lookup_ite_append_ne "productType" "image" (by decide),
      lookup_ite_append_ne "productType" "descriptionText" (by decide),
      lookup_ite_append_ne "productType" "description" (by decide),
      lookup_ite_append_ne "productType" "provider" (by decide),
      lookup_ite_append_ne "productType" "sourceUrl" (by decide)]
    rfl

/-- C10 witness: for a minimal valid product with every optional field
absent, the payload carries `warrantyDays = 7` and `active = true` and
omits `sourceUrl`. -/
theorem addProduct_payload_defaults_witness :
    (ProductApi.addProductPayload sampleProduct).lookup "warrantyDays" = some (.num 7)
    ∧ (ProductApi.addProductPayload sampleProduct).lookup "active" = some (.bool true)
    ∧ (ProductApi.addProductPayload sampleProduct).lookup "sourceUrl" = none := by
  have h := addProduct_payload_defaults "key" sampleProduct rfl
  exact ⟨h.2.2.2.1 rfl, h.2.2.2.2.1 rfl, h.2.2.2.2.2.1 rfl⟩

/-- The clamp `substring(0, 8)` takes the first eight characters. -/
theorem jsSubstring_zero_eight (k : String) :
    (jsSubstring k 0 8).data = k.data.take 8 := by
  have ha : ((min (max (0:Int) 0) ((k.data.length : Int))).toNat) = 0 := by omega
  have hb : ((min (max (8:Int) 0) ((k.data.length : Int))).toNat)
      = min 8 k.data.length := by omega
  simp only [jsSubstring, ha, hb]
  rw [Nat.min_eq_left (Nat.zero_le _), Nat.max_eq_right (Nat.zero_le _),
    Nat.sub_zero, List.drop_zero]
  rcases Nat.le_total 8 k.data.length with h | h
  · rw [Nat.min_eq_left h]
  · rw [Nat.min_eq_right h, List.take_length, List.take_of_length_le h]

/-- The clamp `substring(length - 4)` drops all but the last four
characters (the whole string when it is shorter than four). -/
theorem jsSubstring_last_four (k : String) :
    (jsSubstring k ((k.data.length : Int) - 4) (k.data.length : Int)).data
      = k.data.drop (k.data.length - 4) := by
  have ha : ((min (max ((k.data.length : Int) - 4) 0) ((k.data.length : Int))).toNat)
      = k.data.length - 4 := by omega
  have hb : ((min (max ((k.data.length : Int)) 0) ((k.data.length : Int))).toNat)
      = k.data.length := by omega
  simp only [jsSubstring, ha, hb]
  rw [Nat.min_eq_left (Nat.sub_le _ _), Nat.max_eq_right (Nat.sub_le _ _)]
  rw [show k.data.length - (k.data.length - 4)
      = (k.data.drop (k.data.length - 4)).length from by rw [List.length_drop],
    List.take_length]

/-- Character-level normal form of the mask. -/
theorem maskKey_data (k : String) :
    (maskKey k).data
      = k.data.take 8 ++ ('.' :: '.' :: '.' :: k.data.drop (k.data.length - 4)) := by
  unfold maskKey
  rw [string_data_append, string_data_append, jsSubstring_zero_eight,
    jsSubstring_last_four, List.append_assoc,
    show ("...").data = ['.', '.', '.'] from rfl]
  rfl

/-- The mask agrees with the first-8 plus last-4 description for every
key. -/
theorem maskKey_eq_firstChars_lastChars (k : String) :
    maskKey k = firstChars 8 k ++ "..." ++ lastChars 4 k := by
  apply string_eq_of_data
  rw [maskKey_data, string_data_append, string_data_append, List.append_assoc,
    show ("...").data = ['.', '.', '.'] from rfl]
  rfl

/-- The logged headers for a non-empty key: the key entry masked, the
content type untouched. -/
theorem safeHeaders_getHeader (k : String) (hk : k ≠ "") :
    safeHeaders (ProductApi.getHeader k)
      = [("X-Api-Key", maskKey k), ("Content-Type", "application/json")] := by
  simp only [safeHeaders, ProductApi.getHeader]
  rw [show ((List.lookup "X-Api-Key"
      [("X-Api-Key", k), ("Content-Type", "application/json")]).getD "") = k from rfl]
  rw [if_pos hk]
  rfl

/-- C8 counterexample: for the non-empty key `"abc"` the logged header
value is `"abc...abc"`, in which the raw key occurs verbatim — the
universal never-appears part of the claim fails. -/
theorem masking_counterexample :
    (safeHeaders (ProductApi.getHeader "abc")).lookup "X-Api-Key" = some "abc...abc"
    ∧ ∃ s t, ("abc...abc").data = s ++ ("abc").data ++ t := by
  refine ⟨by decide, [], ("...abc").data, by decide⟩

/-- C8 (amended): for every non-empty key the logged header value is
exactly the first eight characters, `"..."`, then the last four; and
for every key longer than eight characters containing no `.`, the raw
key does not occur verbatim inside the masked value (keys of eight or
fewer characters are reproduced wholesale by the first-8 clamp, which
is what the counterexample exhibits). -/
theorem masking_amended (k : String) (hk : k ≠ "") :
    (safeHeaders (ProductApi.getHeader k)).lookup "X-Api-Key"
      = some (firstChars 8 k ++ "..." ++ lastChars 4 k)
    ∧ (8 < k.data.length → ('.' ∉ k.data) →
        ¬ ∃ s t, (maskKey k).data = s ++ k.data ++ t) := by
  constructor
  · rw [safeHeaders_getHeader k hk, maskKey_eq_firstChars_lastChars]
    rfl
  · rintro hlen hdot ⟨s, t, h⟩
    rw [maskKey_data] at h
    have hA : (k.data.take 8).length = 8 := by
      rw [List.length_take]
      omega
    have hlen15 : s.length + k.data.length + t.length = 15 := by
      have hc := congrArg List.length h
      simp only [List.length_append, List.length_take, List.length_drop,
        List.length_cons] at hc
      omega
    have hs6 : s.length ≤ 6 := by omega
    have hrec : ((k.data.take 8
          ++ ('.' :: '.' :: '.' :: k.data.drop (k.data.length - 4))).drop s.length).take
            k.data.length = k.data := by
      rw [h, List.append_assoc, List.drop_left, List.take_left]
    have hdrop : (k.data.take 8
          ++ ('.' :: '.' :: '.' :: k.data.drop (k.data.length - 4))).drop s.length
        = (k.data.take 8).drop s.length
          ++ ('.' :: '.' :: '.' :: k.data.drop (k.data.length - 4)) := by
      rw [List.drop_append_eq_append_drop, hA,
        show s.length - 8 = 0 from by omega, List.drop_zero]
    have hX : ((k.data.take 8).drop s.length).length = 8 - s.length := by
      rw [List.length_drop, hA]
    have htake : (((k.data.take 8).drop s.length)
          ++ ('.' :: '.' :: '.' :: k.data.drop (k.data.length - 4))).take k.data.length
        = ((k.data.take 8).drop s.length)
          ++ (('.' :: '.' :: '.' :: k.data.drop (k.data.length - 4)).take
            (k.data.length - (8 - s.length))) := by
      rw [List.take_append_eq_append_take, hX]
      congr 1
      rw [List.take_of_length_le]
      rw [hX]
      omega
    obtain ⟨m, hm⟩ : ∃ m, k.data.length - (8 - s.length) = m + 1 :=
      ⟨k.data.length - (8 - s.length) - 1, by omega⟩
    have hmem : '.' ∈ k.data := by
      rw [← hrec, hdrop, htake, hm, List.take_succ_cons]
      exact List.mem_append_right _ (List.mem_cons_self _ _)
    exact hdot hmem

/-- C8 witness: the spec example key masks to `"sk_live_...cdef"` and,
being longer than eight characters and dot-free, never reappears
verbatim inside the masked value. -/
theorem masking_amended_witness :
    (safeHeaders (ProductApi.getHeader "sk_live_1234567890abcdef")).lookup "X-Api-Key"
      = some "sk_live_...cdef"
    ∧ ¬ ∃ s t, (maskKey "sk_live_1234567890abcdef").data
        = s ++ ("sk_live_1234567890abcdef").data ++ t := by
  have h := masking_amended "sk_live_1234567890abcdef" (by decide)
  refine ⟨?_, h.2 (by decide) (by decide)⟩
  rw [h.1]
  decide
